import Mathlib

/-!
Shallow embedding of `src/lib/watcher.js` from sdc-hagfish-watcher: the
periodic VM-usage watcher.  Strings are modelled as `List Char` (`Str`);
JavaScript objects used as string-keyed maps are modelled as association
lists with insertion-order semantics (`aget`/`aset`); JavaScript numbers
are modelled as `ℚ` where fractional arithmetic matters (timestamps,
scheduling) and as `Int`/`ℕ` elsewhere.  Fallible external accessors
(zutil, kstat, zfs, common) are oracle fields of `Oracles`; an accessor
that can fail returns `Option`.  A stage returns its updated state
together with `Option CycleErr`, distinguishing an error passed to a
callback (`cbErr`) from a thrown exception (`thrown`).
-/

namespace Hagfish

/-- Strings of the JavaScript source, modelled as lists of characters. -/
abbrev Str := List Char

/-- Coercion from Lean string literals into the `Str` model. -/
def chars (s : String) : Str := s.data

/-- Lookup in a JS object modelled as an association list (`obj[k]`). -/
def aget {α : Type} (l : List (Str × α)) (k : Str) : Option α :=
  match l with
  | [] => none
  | (k', v) :: rest => if k' = k then some v else aget rest k

/-- Assignment `obj[k] = v` on a JS object modelled as an association list:
an existing key keeps its position and gets the new value, a new key is
appended (JS objects preserve insertion order). -/
def aset {α : Type} (l : List (Str × α)) (k : Str) (v : α) : List (Str × α) :=
  match l with
  | [] => [(k, v)]
  | (k', v') :: rest => if k' = k then (k, v) :: rest else (k', v') :: aset rest k v

/-- JS `s.slice(i)` for a nonnegative start index. -/
def jsSliceFrom (s : Str) (i : ℕ) : Str := s.drop i

/-- JS `s.indexOf(c)`: index of the first occurrence, `-1` when absent. -/
def jsIndexOfChar (s : Str) (c : Char) : Int :=
  match s.findIdx? (fun x => x = c) with
  | some i => (i : Int)
  | none => -1

/-- JS `s.slice(0, e)`: a negative `e` counts from the end, clamped at 0. -/
def jsSliceUpTo (s : Str) (e : Int) : Str :=
  if e < 0 then s.take (s.length - min s.length e.natAbs) else s.take e.toNat

/-- The helper `startsWith` of watcher.js:265-267:
`a.slice(0, str.length) === str`. -/
def startsWith (a s : Str) : Bool := decide (a.take s.length = s)

/-- JS `s.replace(r, '')` for the pattern matching one leading slash
(watcher.js:194). -/
def jsReplaceLeadingSlash (s : Str) : Str :=
  match s with
  | '/' :: rest => rest
  | other => other

/-- Anchored attempt of the regex `z(\d+)_(.*)` at the start of `s`
(watcher.js:219): a literal `z`, then a maximal nonempty digit run, then
`_`, then the greedy remainder.  Returns (zone-id digits, link name).
Backtracking inside `\d+` cannot help, because a shorter digit run is
followed by a digit, never by `_`. -/
def matchAt (s : Str) : Option (Str × Str) :=
  match s with
  | [] => none
  | c :: rest =>
    if c = 'z' then
      match rest.takeWhile Char.isDigit, rest.dropWhile Char.isDigit with
      | [], _ => none
      | d :: ds, '_' :: link => some (d :: ds, link)
      | _ :: _, _ => none
    else none

/-- JS `name.match(/z(\d+)_(.*)/)`: the regex is unanchored, so the engine
tries each start position left to right and returns the first success. -/
def jsMatch : Str → Option (Str × Str)
  | [] => none
  | c :: rest =>
    match matchAt (c :: rest) with
    | some r => some r
    | none => jsMatch rest

/-- JS `Number(s)` on a string of decimal digits. -/
def digitsToNat (s : Str) : ℕ := s.foldl (fun n c => 10 * n + (c.toNat - 48)) 0

/-- Value of one property of a dataset after the coercion loop of
watcher.js:309-316: still text, an integer, or NaN from `parseInt`. -/
inductive PropVal where
  | str (s : Str)
  | num (n : Int)
  | nan
deriving DecidableEq

/-- Digit-run step of `parseInt(s, 10)`: NaN when no leading digits. -/
def jsParseIntDigits (sign : Int) (t : Str) : PropVal :=
  match t.takeWhile Char.isDigit with
  | [] => PropVal.nan
  | ds => PropVal.num (sign * (digitsToNat ds : Int))

/-- JS `parseInt(s, 10)`: skip leading spaces, optional sign, then the
leading digit run; NaN when there are no digits. -/
def jsParseInt (s : Str) : PropVal :=
  match s.dropWhile (fun c => c = ' ') with
  | '-' :: r => jsParseIntDigits (-1) r
  | '+' :: r => jsParseIntDigits 1 r
  | r => jsParseIntDigits 1 r

/-- Config document of one VM as returned by `common.vmGet`
(watcher.js:179-191).  Only the fields the watcher reads are modelled:
`name` and `zonepath`.  The base64 decoding of `attributes.alias`
(watcher.js:187-191) is outside every claim and is not modelled. -/
structure VmConfig where
  name : Str
  zonepath : Str
deriving DecidableEq

/-- One element of the zone listing returned by `common.vmListFromFile`
(the `z` of `onVm`): zone name, OS uuid, dataset path (the zonepath). -/
structure ZoneListing where
  name : Str
  uuid : Str
  dataset : Str
deriving DecidableEq

/-- Result of `zutil.getZoneState` (watcher.js:166): the state string, a
thrown "no such zone configured" error, or any other thrown error. -/
inductive ZoneStateResult where
  | found (st : Str)
  | notFound
  | otherErr
deriving DecidableEq

/-- One entry of the registry `self.vms` (watcher.js:159-185).  `status`
and `config` are `Option` because the JS object may lack those fields when
the state lookup failed or `vmGet` never completed. -/
structure VmEntry where
  uuid : Str
  os_uuid : Str
  timestamp : Str
  status : Option Str
  config : Option VmConfig
deriving DecidableEq

/-- One NetworkUsageSample (watcher.js:245-249).  `counter_start` is
modelled as the millisecond value passed to `new Date(...)`; the
`toISOString` rendering is injective on it and is not modelled. -/
structure NetSample where
  sent_bytes : Int
  received_bytes : Int
  counter_start : ℚ
deriving DecidableEq

/-- One kernel link statistic as read by `kstat.Reader` (watcher.js:216-222):
name, creation time `crtime` (nanoseconds), and the two byte counters. -/
structure LinkStat where
  name : Str
  crtime : ℚ
  obytes64 : Int
  rbytes64 : Int
deriving DecidableEq

/-- Cycle-level failure: an error passed to a stage callback (`cbErr`), or
an exception thrown out of a stage (`thrown`, which in the real process
escapes the async pipeline entirely).  Both prevent emission. -/
inductive CycleErr where
  | cbErr
  | thrown
deriving DecidableEq

/-- Layered decidability instances, registered so that the deeper nested
map types stay within the instance-search depth. -/
instance : DecidableEq (List (Str × PropVal)) := inferInstance

instance : DecidableEq (List (Str × List (Str × PropVal))) := inferInstance

instance : DecidableEq (List (Str × List (Str × List (Str × PropVal)))) :=
  inferInstance

instance : DecidableEq (List (Str × List (Str × NetSample))) := inferInstance

/-- Mutable fields of the Watcher object (watcher.js:24-33). -/
structure WatcherState where
  vms : List (Str × VmEntry)
  network : List (Str × List (Str × NetSample))
  disk : List (Str × List (Str × List (Str × PropVal)))
  vmPathsToZone : List (Str × Str)
  vmDatasetsToPath : List (Str × Str)
  vmsToDataset : List (Str × Str)
deriving DecidableEq

/-- Watcher state right after the constructor (watcher.js:24-33). -/
def initialState : WatcherState := ⟨[], [], [], [], [], []⟩

/-- External accessors for one cycle, as oracles.  `none` from a fallible
accessor stands for its failure (error callback or thrown exception).
`clock` is the ISO timestamp string `new Date().toISOString()` of this
cycle.  `vmList` is modelled as always succeeding: watcher.js:144 ignores
the error argument of `vmListFromFile`, and no claim exercises it. -/
structure Oracles where
  bootTime : Option ℚ
  linkStats : List LinkStat
  getZoneById : ℕ → Option Str
  vmList : List ZoneListing
  getZoneState : Str → ZoneStateResult
  vmGet : Str → Option VmConfig
  zfsGet : Option (List (Str × List (Str × Str)))
  clock : Str

/-- The code of watcher.js:241-243: the number handed to `new Date(...)`
for `counter_start`, in milliseconds:
`bootTimestamp * 1000 + Number(link.crtime) / 1000000000.0`. -/
def counterStartMs (bootTimestamp crtime : ℚ) : ℚ :=
  bootTimestamp * 1000 + crtime / 1000000000

/-- Modelled from the spec: "counter-epoch start timestamp (derived from
host boot time plus the link's creation offset, in nanoseconds, converted
to an absolute timestamp)" — boot time in seconds times 1000 plus the
nanosecond offset converted to milliseconds. -/
def specCounterStartMs (bootTimestamp crtime : ℚ) : ℚ :=
  bootTimestamp * 1000 + crtime / 1000000

/-- The sample recorded for one matched link statistic (watcher.js:245-249). -/
def mkNetSample (boot : ℚ) (st : LinkStat) : NetSample :=
  { sent_bytes := st.obytes64
    received_bytes := st.rbytes64
    counter_start := counterStartMs boot st.crtime }

/-- The `while (i--)` scan of watcher.js:221-250 over the link statistics,
given in processing order (the JS loop walks the array from its last
element to its first, so this is applied to the reversed array).  Each
matched name is resolved through `getZoneById`; a failed resolve is a
thrown exception (`none`), because watcher.js:231 has no try/catch. -/
def processStats (g : ℕ → Option Str) (boot : ℚ) :
    List LinkStat → Option (List (Str × Str × NetSample))
  | [] => some []
  | st :: rest =>
    match jsMatch st.name with
    | none => processStats g boot rest
    | some (ds, link) =>
      match g (digitsToNat ds) with
      | none => none
      | some zname =>
        match processStats g boot rest with
        | none => none
        | some l => some ((zname, link, mkNetSample boot st) :: l)

/-- Folds the recorded (zonename, linkname, sample) triples, in processing
order, into the nested `usage` object of watcher.js:233-249. -/
def usageFold (recs : List (Str × Str × NetSample)) :
    List (Str × List (Str × NetSample)) :=
  recs.foldl
    (fun u r => aset u r.1 (aset ((aget u r.1).getD []) r.2.1 r.2.2)) []

/-- Characterisation of what `processStats` records for one statistic:
`none` when the name has no regex match (the stat is skipped) or the zone
id does not resolve (which in the code is a thrown exception). -/
def entryFor (g : ℕ → Option Str) (boot : ℚ) (st : LinkStat) :
    Option (Str × Str × NetSample) :=
  match jsMatch st.name with
  | none => none
  | some (ds, link) =>
    match g (digitsToNat ds) with
    | none => none
    | some zname => some (zname, link, mkNetSample boot st)

/-- Stage `updateNetworkUsage` (watcher.js:204-263): read boot time (a
failure is passed to the cycle callback), scan the link statistics (a
failed zone-id resolve throws), and only on success replace
`self.network` with the freshly built map. -/
def updateNetworkUsage (o : Oracles) (s : WatcherState) :
    WatcherState × Option CycleErr :=
  match o.bootTime with
  | none => (s, some CycleErr.cbErr)
  | some boot =>
    match processStats o.getZoneById boot o.linkStats.reverse with
    | none => (s, some CycleErr.thrown)
    | some recs => ({ s with network := usageFold recs }, none)

/-- Continuation of `onVm` past the state lookup (watcher.js:179-200):
`common.vmGet` runs, its error is passed to the enclosing stage callback
(watcher.js:181, a cycle-level error), and on success the config is stored
and the three cross-reference tables are updated.  `status` is whatever the
state lookup produced before this point.  Note the registry entry
`self.vms[z.name]` was already created at watcher.js:159, so it is present
in every outcome. -/
def onVmAfterState (o : Oracles) (s : WatcherState) (z : ZoneListing)
    (status : Option Str) : WatcherState × Option CycleErr :=
  let vm1 : VmEntry :=
    { uuid := z.name, os_uuid := z.uuid, timestamp := o.clock
      status := status, config := none }
  match o.vmGet z.name with
  | none => ({ s with vms := aset s.vms z.name vm1 }, some CycleErr.cbErr)
  | some cfg =>
    let vm2 : VmEntry := { vm1 with config := some cfg }
    let dataset := jsReplaceLeadingSlash z.dataset
    ({ s with
        vms := aset s.vms z.name vm2
        vmDatasetsToPath := aset s.vmDatasetsToPath dataset z.dataset
        vmPathsToZone := aset s.vmPathsToZone z.dataset z.name
        vmsToDataset := aset s.vmsToDataset z.name dataset }, none)

/-- The per-zone body `onVm` (watcher.js:153-201).  The global zone is
skipped.  For the rest, the registry entry is created first
(watcher.js:159); the state lookup then either sets `status`, or — on the
"no such zone configured" exception — logs a warning, calls `cb()` and
FALLS THROUGH (the catch block at watcher.js:170-173 does not return), or
rethrows any other error out of the stage.  In both non-throwing cases
execution continues into `common.vmGet`. -/
def onVm (o : Oracles) (s : WatcherState) (z : ZoneListing) :
    WatcherState × Option CycleErr :=
  if z.name = chars "global" then (s, none)
  else
    match o.getZoneState z.name with
    | ZoneStateResult.otherErr =>
      let vm0 : VmEntry :=
        { uuid := z.name, os_uuid := z.uuid, timestamp := o.clock
          status := none, config := none }
      ({ s with vms := aset s.vms z.name vm0 }, some CycleErr.thrown)
    | ZoneStateResult.found st => onVmAfterState o s z (some st)
    | ZoneStateResult.notFound => onVmAfterState o s z none

/-- Sequentialised `async.each` over the zone listing (watcher.js:145-150).
Every item runs and mutates the shared state; the first error is
remembered (`async.each` starts all items before any failure is observed,
and the final callback at watcher.js:148 ignores per-item errors), except
that a synchronously thrown exception stops the dispatch of the remaining
items. -/
def runEach (o : Oracles) (s : WatcherState) (e : Option CycleErr) :
    List ZoneListing → WatcherState × Option CycleErr
  | [] => (s, e)
  | z :: rest =>
    if e = some CycleErr.thrown then (s, e)
    else
      let r := onVm o s z
      runEach o r.1
        (match e with | some x => some x | none => r.2) rest

/-- Stage `updateVirtualMachines` (watcher.js:142-202). -/
def updateVirtualMachines (o : Oracles) (s : WatcherState) :
    WatcherState × Option CycleErr :=
  runEach o s none o.vmList

/-- The designated numeric dataset properties (watcher.js:292-293). -/
def numKeys : List Str :=
  [chars "used", chars "available", chars "referenced", chars "quota",
   chars "volsize"]

/-- Body of the coercion loop of watcher.js:309-316 for one property:
convert with `parseInt(v, 10)` exactly when the value differs from the
sentinel `-` and the key is one of `numKeys`. -/
def coerceVal (k v : Str) : PropVal :=
  if v ≠ chars "-" ∧ k ∈ numKeys then jsParseInt v else PropVal.str v

/-- The `add` function of watcher.js:306-317 applied to one dataset's
property object: every property runs through the coercion branch. -/
def coerceProps (props : List (Str × Str)) : List (Str × PropVal) :=
  props.map (fun p => (p.1, coerceVal p.1 p.2))

/-- The `for (var d in datasets)` loop of watcher.js:319-329 for one VM:
`zonepath` is the config zonepath without its first character, `pool` is
`zonepath.slice(0, zonepath.indexOf('/'))`, and a dataset is added (via
`add`, i.e. `coerceProps`) when its name starts with `zonepath` or with
`pool + "/cores/" + uuid`. -/
def diskAddLoop (datasets : List (Str × List (Str × Str))) (uuid : Str)
    (zonepathCfg : Str) (cur : List (Str × List (Str × PropVal))) :
    List (Str × List (Str × PropVal)) :=
  match datasets with
  | [] => cur
  | (d, props) :: rest =>
    let zonepath := jsSliceFrom zonepathCfg 1
    let pool := jsSliceUpTo zonepath (jsIndexOfChar zonepath '/')
    let cur1 := if startsWith d zonepath then aset cur d (coerceProps props) else cur
    let cur2 :=
      if startsWith d (pool ++ chars "/cores/" ++ uuid)
      then aset cur1 d (coerceProps props) else cur1
    diskAddLoop rest uuid zonepathCfg cur2

/-- Per-VM walk of watcher.js:298-331: ensure `self.disk[uuid]` exists,
then run the dataset loop.  `vm.config.zonepath` is read inside the loop
body, so a missing config is a thrown TypeError exactly when the dataset
listing is nonempty (an empty listing never runs the body). -/
def updateDiskGo (datasets : List (Str × List (Str × Str)))
    (s : WatcherState) : List (Str × VmEntry) → WatcherState × Option CycleErr
  | [] => (s, none)
  | (uuid, vm) :: rest =>
    let disk0 := match aget s.disk uuid with
      | none => aset s.disk uuid []
      | some _ => s.disk
    match vm.config with
    | none =>
      match datasets with
      | [] => updateDiskGo datasets { s with disk := disk0 } rest
      | _ :: _ => ({ s with disk := disk0 }, some CycleErr.thrown)
    | some cfg =>
      let cur := (aget disk0 uuid).getD []
      let s' : WatcherState :=
        { s with disk := aset disk0 uuid (diskAddLoop datasets uuid cfg.zonepath cur) }
      updateDiskGo datasets s' rest

/-- Stage `updateDisk` (watcher.js:269-340).  A failure of the bulk
`zfs.get` is passed to `cb(geterr)`, but the inner waterfall's final
handler at watcher.js:337-339 ignores its error argument and calls the
stage callback with no error, so the stage "succeeds" with nothing
updated. -/
def updateDisk (o : Oracles) (s : WatcherState) :
    WatcherState × Option CycleErr :=
  match o.zfsGet with
  | none => (s, none)
  | some datasets => updateDiskGo datasets s s.vms

/-- The versioned output record of one instance (watcher.js:122-139). -/
structure Snapshot where
  zonename : Str
  zonepath : Str
  uuid : Str
  os_uuid : Str
  status : Option Str
  config : VmConfig
  network_usage : Option (List (Str × NetSample))
  disk_usage : Option (List (Str × List (Str × PropVal)))
  timestamp : Str
  v : Str
deriving DecidableEq

/-- `transformVm` (watcher.js:122-139): reading `vmObj.config.name` on an
entry with no config is a thrown TypeError (`none`); otherwise the
snapshot is built, with `uuid` and `zonename` both taken from the config
`name` and the network and disk maps consulted under that name. -/
def transformVm (s : WatcherState) (vmObj : VmEntry) : Option Snapshot :=
  match vmObj.config with
  | none => none
  | some cfg =>
    some { zonename := cfg.name
           zonepath := cfg.zonepath
           uuid := cfg.name
           os_uuid := vmObj.os_uuid
           status := vmObj.status
           config := cfg
           network_usage := aget s.network cfg.name
           disk_usage := aget s.disk cfg.name
           timestamp := vmObj.timestamp
           v := chars "1" }

/-- Accumulating walk of `transform`'s `async.each` (watcher.js:109-119):
each snapshot is stored into the local `vms` object under its `uuid`. -/
def transformGo (s : WatcherState) (acc : List (Str × Snapshot)) :
    List (Str × VmEntry) → Option (List (Str × Snapshot))
  | [] => some acc
  | (_, vm) :: rest =>
    match transformVm s vm with
    | none => none
    | some snap => transformGo s (aset acc snap.uuid snap) rest

/-- Stage `transform` (watcher.js:105-120): one snapshot per registry
entry, keyed and then listed in insertion order. -/
def transformList (s : WatcherState) : Option (List Snapshot) :=
  (transformGo s [] s.vms).map (fun l => l.map (fun p => p.2))

/-- Result of one cycle: final state, emitted snapshots, cycle error. -/
structure CycleResult where
  state : WatcherState
  emitted : List Snapshot
  err : Option CycleErr
deriving DecidableEq

/-- The `async.waterfall` of `gatherStateAllZones` (watcher.js:71-102):
network, then instance enumeration, then disk, then transform; the
`vm-update` events are emitted only by the final waterfall task, which
runs only when every earlier stage passed no error; on error the final
handler just logs. -/
def gatherStateAllZones (o : Oracles) (s : WatcherState) : CycleResult :=
  match updateNetworkUsage o s with
  | (s1, some e) => ⟨s1, [], some e⟩
  | (s1, none) =>
    match updateVirtualMachines o s1 with
    | (s2, some e) => ⟨s2, [], some e⟩
    | (s2, none) =>
      match updateDisk o s2 with
      | (s3, some e) => ⟨s3, [], some e⟩
      | (s3, none) =>
        match transformList s3 with
        | none => ⟨s3, [], some CycleErr.thrown⟩
        | some snaps => ⟨s3, snaps, none⟩

/-- The fixed scheduling offset of watcher.js:56. -/
def fixedOffsetSeconds : ℚ := 5

/-- JS `%` on nonnegative operands (`a - b * Math.floor(a / b)` coincides
with the truncated JS remainder when both operands are nonnegative). -/
def jsMod (a b : ℚ) : ℚ := a - b * (⌊a / b⌋ : ℚ)

/-- The delay `dsecs` computed by `scheduleConfigurationCheck`
(watcher.js:54-65): `secs = 5 + Date.now()/1000`,
`dsecs = interval - secs % interval + 5`. -/
def schedDelaySeconds (intervalSeconds nowMs : ℚ) : ℚ :=
  intervalSeconds - jsMod (fixedOffsetSeconds + nowMs / 1000) intervalSeconds
    + fixedOffsetSeconds

/-- The wall-clock second at which the re-armed timer fires:
now plus the computed delay. -/
def nextFireSeconds (intervalSeconds nowMs : ℚ) : ℚ :=
  nowMs / 1000 + schedDelaySeconds intervalSeconds nowMs

/-! Concrete scenarios used by the per-claim theorems and witnesses. -/

/-- Scenario C1: listing with two zones; the state lookup for `aaa` throws
"no such zone configured", `bbb` is running; `vmGet` succeeds for both. -/
def oracleC1 : Oracles :=
  { bootTime := some 0
    linkStats := []
    getZoneById := fun _ => none
    vmList :=
      [⟨chars "aaa", chars "os-a", chars "/pool0/zones/aaa"⟩,
       ⟨chars "bbb", chars "os-b", chars "/pool0/zones/bbb"⟩]
    getZoneState := fun n =>
      if n = chars "aaa" then ZoneStateResult.notFound
      else ZoneStateResult.found (chars "running")
    vmGet := fun n => some ⟨n, '/' :: (chars "pool0/zones/" ++ n)⟩
    zfsGet := some []
    clock := chars "2013-01-01T00:00:00.000Z" }

/-- Scenario C2: a single healthy zone, empty statistics and datasets. -/
def oracleC2 : Oracles :=
  { bootTime := some 0
    linkStats := []
    getZoneById := fun _ => none
    vmList := [⟨chars "ccc", chars "os-c", chars "/pool0/zones/ccc"⟩]
    getZoneState := fun _ => ZoneStateResult.found (chars "running")
    vmGet := fun n => some ⟨n, '/' :: (chars "pool0/zones/" ++ n)⟩
    zfsGet := some []
    clock := chars "2013-01-01T00:00:00.000Z" }

/-- Scenario C7 counterexample: a link statistic whose name `xz1_net0` does
not have the whole-name form `z<zoneid>_<linkname>` (it starts with `x`). -/
def statC7x : LinkStat :=
  { name := chars "xz1_net0", crtime := 0, obytes64 := 1, rbytes64 := 2 }

/-- Scenario C7: a resolver that finds every zone id. -/
def resolveC7 : ℕ → Option Str := fun _ => some (chars "zoneA")

/-- Scenario C7 witness: a well-formed statistic name. -/
def statC7w : LinkStat :=
  { name := chars "z1_net0", crtime := 0, obytes64 := 1, rbytes64 := 2 }

/-- Scenario C8: the statistic whose zone id (5) no longer resolves. -/
def statC8a : LinkStat :=
  { name := chars "z5_net0", crtime := 0, obytes64 := 3, rbytes64 := 4 }

/-- Scenario C8: a statistic whose zone id (6) still resolves. -/
def statC8b : LinkStat :=
  { name := chars "z6_net1", crtime := 0, obytes64 := 5, rbytes64 := 6 }

/-- Scenario C8: zone id 6 resolves, zone id 5 was destroyed. -/
def resolveC8 : ℕ → Option Str :=
  fun n => if n = 6 then some (chars "zoneB") else none

/-- Scenario C8 oracle: boot time reads fine, the scan hits the dead id. -/
def oracleC8 : Oracles :=
  { bootTime := some 0
    linkStats := [statC8a, statC8b]
    getZoneById := resolveC8
    vmList := []
    getZoneState := fun _ => ZoneStateResult.notFound
    vmGet := fun _ => none
    zfsGet := some []
    clock := chars "2013-01-01T00:00:00.000Z" }

/-- Scenario C9, first cycle: only zone `aaa` is listed. -/
def oracleC9a : Oracles :=
  { bootTime := some 0
    linkStats := []
    getZoneById := fun _ => none
    vmList := [⟨chars "aaa", chars "os-a", chars "/pool0/zones/aaa"⟩]
    getZoneState := fun _ => ZoneStateResult.found (chars "running")
    vmGet := fun n => some ⟨n, '/' :: (chars "pool0/zones/" ++ n)⟩
    zfsGet := some []
    clock := chars "2013-01-01T00:00:00.000Z" }

/-- Scenario C9, second cycle: zone `aaa` is gone, only `bbb` is listed. -/
def oracleC9b : Oracles :=
  { bootTime := some 0
    linkStats := []
    getZoneById := fun _ => none
    vmList := [⟨chars "bbb", chars "os-b", chars "/pool0/zones/bbb"⟩]
    getZoneState := fun _ => ZoneStateResult.found (chars "running")
    vmGet := fun n => some ⟨n, '/' :: (chars "pool0/zones/" ++ n)⟩
    zfsGet := some []
    clock := chars "2013-01-01T00:00:01.000Z" }

/-- Scenario C10: the boot-time read fails, everything else is healthy. -/
def oracleC10 : Oracles :=
  { bootTime := none
    linkStats := [statC8b]
    getZoneById := resolveC8
    vmList := []
    getZoneState := fun _ => ZoneStateResult.notFound
    vmGet := fun _ => none
    zfsGet := some []
    clock := chars "2013-01-01T00:00:00.000Z" }

/-! Helper lemmas about the association-list object model. -/

theorem aget_aset_self {α : Type} (l : List (Str × α)) (k : Str) (v : α) :
    aget (aset l k v) k = some v := by
  induction l with
  | nil => simp [aset, aget]
  | cons p rest ih =>
    obtain ⟨k', v'⟩ := p
    by_cases h : k' = k
    · simp [aset, aget, h]
    · simp [aset, aget, h, ih]

theorem aget_aset_ne {α : Type} (l : List (Str × α)) (k k' : Str) (v : α)
    (h : k ≠ k') : aget (aset l k v) k' = aget l k' := by
  induction l with
  | nil => simp [aset, aget, h]
  | cons p rest ih =>
    obtain ⟨k'', v''⟩ := p
    by_cases h2 : k'' = k
    · subst h2
      simp [aset, aget, h]
    · simp [aset, aget, h2, ih]

theorem aget_aset_isSome {α : Type} (l : List (Str × α)) (k k' : Str) (v : α) :
    (aget (aset l k v) k').isSome = ((aget l k').isSome || decide (k = k')) := by
  by_cases h : k = k'
  · subst h
    simp [aget_aset_self]
  · simp [aget_aset_ne l k k' v h, h]

/-! Theorems for the claims. -/

/-- Claim C3 (code bug): the spec says `counter_start` is boot time (s)
plus the link creation offset (ns) as an absolute timestamp, but
watcher.js:241-243 divides the nanosecond `crtime` by 1e9 (yielding
seconds) and adds it to a millisecond quantity.  At boot time 1000000 s
and crtime 3000000000 ns (3 s after boot) the code hands `new Date` the
value 1000000003 ms (3 ms after boot) instead of 1000003000 ms. -/
theorem claim_C3_bug :
    counterStartMs 1000000 3000000000 = 1000000003 ∧
    specCounterStartMs 1000000 3000000000 = 1000003000 ∧
    counterStartMs 1000000 3000000000 ≠
      specCounterStartMs 1000000 3000000000 := by
  refine ⟨by norm_num [counterStartMs], by norm_num [specCounterStartMs], ?_⟩
  norm_num [counterStartMs, specCounterStartMs]

/-- Claim C4 counterexample: at interval 60 s and now = 0 ms the computed
next fire time is 60 s, which is NOT congruent to the fixed offset 5
modulo 60: the code's `dsecs = interval - (now/1000+5) % interval + 5`
lands on multiples of the interval, not on offset-aligned points. -/
theorem counterexample_C4 :
    nextFireSeconds 60 0 = 60 ∧
    ¬ ∃ k : ℤ, nextFireSeconds 60 0 = fixedOffsetSeconds + 60 * k := by
  constructor
  · norm_num [nextFireSeconds, schedDelaySeconds, jsMod, fixedOffsetSeconds]
  · rintro ⟨k, hk⟩
    rw [show nextFireSeconds 60 0 = 60 by
      norm_num [nextFireSeconds, schedDelaySeconds, jsMod, fixedOffsetSeconds]]
      at hk
    have h' : (55 : ℚ) = 60 * (k : ℚ) := by
      rw [fixedOffsetSeconds] at hk
      linarith
    have h2 : (55 : ℤ) = 60 * k := by exact_mod_cast h'
    omega

/-- Claim C4 as amended: for every positive interval length and every
nonnegative current time, the next fire time `now + dsecs` is an exact
multiple of the interval (congruent to 0, not to the offset 5, modulo the
interval), and is strictly later than the current time. -/
theorem claim_C4 (i now : ℚ) (hi : 0 < i) (hnow : 0 ≤ now) :
    (∃ k : ℤ, nextFireSeconds i now = i * k) ∧
    now / 1000 < nextFireSeconds i now := by
  constructor
  · refine ⟨⌊(fixedOffsetSeconds + now / 1000) / i⌋ + 1, ?_⟩
    rw [nextFireSeconds, schedDelaySeconds, jsMod]
    push_cast
    ring
  · rw [nextFireSeconds, schedDelaySeconds, jsMod]
    have h1 := Int.sub_one_lt_floor ((fixedOffsetSeconds + now / 1000) / i)
    have h2 : ((fixedOffsetSeconds + now / 1000) / i - 1) * i <
        (⌊(fixedOffsetSeconds + now / 1000) / i⌋ : ℚ) * i :=
      (mul_lt_mul_right hi).mpr h1
    have h3 : (fixedOffsetSeconds + now / 1000) / i * i
        = fixedOffsetSeconds + now / 1000 :=
      div_mul_cancel₀ _ (ne_of_gt hi)
    have hoff : (0 : ℚ) < fixedOffsetSeconds := by norm_num [fixedOffsetSeconds]
    nlinarith [h2, h3]

/-- Claim C4 witness: the amended statement at interval 60 s, now 0 ms. -/
theorem witness_C4 :
    (0 : ℚ) < 60 ∧ (0 : ℚ) ≤ 0 ∧
    ((∃ k : ℤ, nextFireSeconds 60 0 = 60 * k) ∧
      (0 : ℚ) / 1000 < nextFireSeconds 60 0) :=
  ⟨by norm_num, le_refl 0, claim_C4 60 0 (by norm_num) (le_refl 0)⟩

/-- Claim C10 (confirmed): `updateNetworkUsage` either fails leaving the
whole watcher state — the previously stored network map included —
untouched, or succeeds and replaces `self.network` wholesale with a map
built from the oracle reads alone, independent of the previous state. -/
theorem claim_C10 (o : Oracles) (s : WatcherState) :
    ((updateNetworkUsage o s).2.isSome → (updateNetworkUsage o s).1 = s) ∧
    ((updateNetworkUsage o s).2 = none → ∀ s' : WatcherState,
      (updateNetworkUsage o s').2 = none →
      (updateNetworkUsage o s).1.network = (updateNetworkUsage o s').1.network) := by
  constructor
  · intro hsome
    rcases hb : o.bootTime with _ | boot
    · simp [updateNetworkUsage, hb]
    · rcases hp : processStats o.getZoneById boot o.linkStats.reverse with _ | recs
      · simp [updateNetworkUsage, hb, hp]
      · simp [updateNetworkUsage, hb, hp] at hsome
  · intro hnone s' hnone'
    rcases hb : o.bootTime with _ | boot
    · simp [updateNetworkUsage, hb] at hnone
    · rcases hp : processStats o.getZoneById boot o.linkStats.reverse with _ | recs
      · simp [updateNetworkUsage, hb, hp] at hnone
      · simp [updateNetworkUsage, hb, hp]

/-- Claim C10 witness: with the boot-time read failing (scenario C10) the
stage reports an error and the state, previous network map included, is
exactly the old one. -/
theorem witness_C10 :
    (updateNetworkUsage oracleC10 initialState).2.isSome ∧
    (updateNetworkUsage oracleC10 initialState).1 = initialState :=
  ⟨by decide, (claim_C10 oracleC10 initialState).1 (by decide)⟩

/-- Claim C6 (confirmed): inside `add`, every property of an attached
dataset runs through the coercion branch; the value is handed to
`parseInt(_, 10)` exactly when the key is one of the five designated
numeric keys and the text differs from the sentinel `-`; the sentinel is
never converted whatever the key, and non-numeric keys stay text. -/
theorem claim_C6 (props : List (Str × Str)) (k v : Str)
    (hmem : (k, v) ∈ props) :
    (k, coerceVal k v) ∈ coerceProps props ∧
    (v = chars "-" → coerceVal k v = PropVal.str v) ∧
    (k ∉ numKeys → coerceVal k v = PropVal.str v) ∧
    (k ∈ numKeys → v ≠ chars "-" → coerceVal k v = jsParseInt v) := by
  refine ⟨?_, ?_, ?_, ?_⟩
  · exact List.mem_map.mpr ⟨(k, v), hmem, rfl⟩
  · intro hv
    simp [coerceVal, hv]
  · intro hk
    simp [coerceVal, hk]
  · intro hk hv
    simp [coerceVal, hk, hv]

/-- Claim C6 witness: the property object of one dataset holding a
sentinel-valued numeric key; the theorem applies at `("used", "-")`. -/
theorem witness_C6 :
    ((chars "used", chars "-") ∈ [(chars "used", chars "-")]) ∧
    ((chars "used", coerceVal (chars "used") (chars "-")) ∈
        coerceProps [(chars "used", chars "-")] ∧
      (chars "-" = chars "-" →
        coerceVal (chars "used") (chars "-") = PropVal.str (chars "-")) ∧
      (chars "used" ∉ numKeys →
        coerceVal (chars "used") (chars "-") = PropVal.str (chars "-")) ∧
      (chars "used" ∈ numKeys → chars "-" ≠ chars "-" →
        coerceVal (chars "used") (chars "-") = jsParseInt (chars "-"))) :=
  ⟨by decide, claim_C6 [(chars "used", chars "-")] (chars "used") (chars "-")
    (by decide)⟩

/-- Characterisation of the statistics scan when every matched zone id
resolves: the scan completes and records exactly `entryFor` of each
statistic, in processing order. -/
theorem processStats_eq_filterMap (g : ℕ → Option Str) (b : ℚ)
    (stats : List LinkStat)
    (h : ∀ st ∈ stats, ∀ ds link, jsMatch st.name = some (ds, link) →
      g (digitsToNat ds) ≠ none) :
    processStats g b stats = some (stats.filterMap (entryFor g b)) := by
  induction stats with
  | nil => rfl
  | cons st rest ih =>
    have hrest : ∀ st' ∈ rest, ∀ ds link, jsMatch st'.name = some (ds, link) →
        g (digitsToNat ds) ≠ none := by
      intro st' hm ds link hml
      exact h st' (List.mem_cons_of_mem st hm) ds link hml
    rcases hm : jsMatch st.name with _ | ⟨ds, link⟩
    · simp [processStats, hm, List.filterMap_cons, entryFor, ih hrest]
    · have hres : g (digitsToNat ds) ≠ none :=
        h st (List.mem_cons_self st rest) ds link hm
      rcases hg : g (digitsToNat ds) with _ | zn
      · exact absurd hg hres
      · simp [processStats, hm, hg, ih hrest, List.filterMap_cons, entryFor]

/-- Claim C7 counterexample: the statistic named `xz1_net0` does NOT have
the whole-name form `z<zoneid>_<linkname>` (the anchored match fails: the
name starts with `x`), yet the scan records a sample for it, because the
JS regex `/z(\d+)_(.*)/` is unanchored and matches at position 1. -/
theorem counterexample_C7 :
    processStats resolveC7 0 [statC7x] =
      some [(chars "zoneA", chars "net0", mkNetSample 0 statC7x)] ∧
    matchAt statC7x.name = none :=
  ⟨rfl, rfl⟩

/-- Claim C7 as amended: provided every matched zone id resolves, a
NetworkUsageSample is recorded for a statistic if and only if the regex
`z(\d+)_(.*)` matches SOMEWHERE in its name (the match may start at any
position, not only at the start); statistics with no such substring, such
as typical global-zone link names, are ignored and produce no sample. -/
theorem claim_C7 (g : ℕ → Option Str) (b : ℚ) (stats : List LinkStat)
    (h : ∀ st ∈ stats, ∀ ds link, jsMatch st.name = some (ds, link) →
      g (digitsToNat ds) ≠ none) :
    processStats g b stats.reverse =
      some (stats.reverse.filterMap (entryFor g b)) ∧
    ∀ st ∈ stats, ((entryFor g b st).isSome ↔ (jsMatch st.name).isSome) := by
  constructor
  · apply processStats_eq_filterMap
    intro st hst
    exact h st (List.mem_reverse.mp hst)
  · intro st hst
    rcases hm : jsMatch st.name with _ | ⟨ds, link⟩
    · simp [entryFor, hm]
    · have hres : g (digitsToNat ds) ≠ none := h st hst ds link hm
      rcases hg : g (digitsToNat ds) with _ | zn
      · exact absurd hg hres
      · simp [entryFor, hm, hg]

/-- Claim C7 witness: one well-formed statistic `z1_net0`; its sample is
recorded and the iff holds at it. -/
theorem witness_C7 :
    processStats resolveC7 0 [statC7w].reverse =
      some ([statC7w].reverse.filterMap (entryFor resolveC7 0)) ∧
    ∀ st ∈ [statC7w],
      ((entryFor resolveC7 0 st).isSome ↔ (jsMatch st.name).isSome) :=
  claim_C7 resolveC7 0 [statC7w]
    (by intro st hst ds link hm; simp [resolveC7])

/-- Claim C8 (code bug): the zone-id resolve at watcher.js:231 runs with no
try/catch, so when the id of a matched link no longer resolves the scan
aborts with a thrown exception: the link is not merely dropped, the whole
stage fails and NO link of the cycle is recorded — although the sibling
statistic `z6_net1` matched and its zone id still resolved. -/
theorem claim_C8_bug :
    updateNetworkUsage oracleC8 initialState =
      (initialState, some CycleErr.thrown) ∧
    jsMatch statC8a.name = some (chars "5", chars "net0") ∧
    resolveC8 (digitsToNat (chars "5")) = none ∧
    entryFor resolveC8 0 statC8b ≠ none :=
  ⟨rfl, rfl, rfl, by decide⟩

/-- Index of the first `/` in `pool ++ '/' :: rest` when `pool` holds no
slash, with a generalised start index for the induction. -/
theorem findIdx_slash_aux (pool rest : Str) (i : ℕ)
    (h : ∀ c ∈ pool, c ≠ '/') :
    List.findIdx? (fun x => x = '/') (pool ++ '/' :: rest) i
      = some (i + pool.length) := by
  induction pool generalizing i with
  | nil => simp [List.findIdx?]
  | cons c cs ih =>
    have hc : c ≠ '/' := h c (List.mem_cons_self c cs)
    have hcs : ∀ x ∈ cs, x ≠ '/' :=
      fun x hx => h x (List.mem_cons_of_mem c hx)
    rw [List.cons_append]
    rw [show List.findIdx? (fun x => x = '/') (c :: (cs ++ '/' :: rest)) i
        = List.findIdx? (fun x => x = '/') (cs ++ '/' :: rest) (i + 1) from by
      simp [List.findIdx?, hc]]
    rw [ih (i + 1) hcs]
    simp [List.length_cons]
    omega

/-- The pool extraction of watcher.js:321 on a root path of the form
`/pool/rest`: `zonepath.slice(0, zonepath.indexOf('/'))` is the pool name
when the pool name holds no slash. -/
theorem pool_extraction (pool rest : Str) (h : ∀ c ∈ pool, c ≠ '/') :
    jsSliceUpTo (pool ++ '/' :: rest)
      (jsIndexOfChar (pool ++ '/' :: rest) '/') = pool := by
  rw [jsIndexOfChar, findIdx_slash_aux pool rest 0 h]
  simp only [Nat.zero_add, jsSliceUpTo]
  rw [if_neg (by simp), Int.toNat_natCast]
  exact List.take_left pool ('/' :: rest)

/-- Presence after the two conditional `add` calls of one loop iteration
(watcher.js:323-328), as one Boolean equation. -/
theorem aget_isSome_twoIf {α : Type} (cur : List (Str × α)) (w : α)
    (d' d : Str) (c1 c2 : Bool) :
    (aget (if c2 = true then aset (if c1 = true then aset cur d' w else cur) d' w
           else if c1 = true then aset cur d' w else cur) d).isSome
    = ((aget cur d).isSome || ((c1 || c2) && decide (d' = d))) := by
  by_cases hd : d' = d
  · subst hd
    cases c1 <;> cases c2 <;> simp [aget_aset_self]
  · cases c1 <;> cases c2 <;> simp [aget_aset_ne _ _ _ _ hd, hd]

/-- Membership in the dataset loop's output: a dataset name is present
after the loop exactly when it was present before, or it occurs in the
bulk listing and one of the two prefix tests of watcher.js:323-328 holds. -/
theorem diskAddLoop_aget_isSome (datasets : List (Str × List (Str × Str)))
    (uuid zpCfg : Str) (cur : List (Str × List (Str × PropVal))) (d : Str) :
    (aget (diskAddLoop datasets uuid zpCfg cur) d).isSome = true ↔
    ((aget cur d).isSome = true ∨ ∃ props, (d, props) ∈ datasets ∧
      (startsWith d (jsSliceFrom zpCfg 1) = true ∨
       startsWith d (jsSliceUpTo (jsSliceFrom zpCfg 1)
           (jsIndexOfChar (jsSliceFrom zpCfg 1) '/')
         ++ chars "/cores/" ++ uuid) = true)) := by
  induction datasets generalizing cur with
  | nil => simp [diskAddLoop]
  | cons p rest ih =>
    obtain ⟨d', props'⟩ := p
    simp only [diskAddLoop]
    rw [ih, aget_isSome_twoIf]
    by_cases hd : d' = d
    · subst hd
      simp only [Bool.or_eq_true, Bool.and_eq_true, decide_eq_true_eq,
        List.mem_cons, Prod.mk.injEq, and_true, true_and, eq_self_iff_true]
      constructor
      · rintro ((hp | hc) | ⟨props, hq, hc⟩)
        · exact Or.inl hp
        · exact Or.inr ⟨props', Or.inl rfl, hc⟩
        · exact Or.inr ⟨props, Or.inr hq, hc⟩
      · rintro (hp | ⟨props, hpq | hq, hc⟩)
        · exact Or.inl (Or.inl hp)
        · exact Or.inl (Or.inr hc)
        · exact Or.inr ⟨props, hq, hc⟩
    · have hd2 : ¬ (d = d') := fun h => hd h.symm
      simp [hd, hd2]

/-- Claim C5 (confirmed): for an instance whose root path is
`/pool/rest` (the pool name holding no slash), a dataset name is attached
to the freshly created disk-usage map of that instance if and only if it
occurs in the bulk listing and starts with the root path stripped of its
leading separator, or with the pool name followed by `/cores/` and the
instance uuid. -/
theorem claim_C5 (datasets : List (Str × List (Str × Str)))
    (uuid pool rest d : Str) (hpool : ∀ c ∈ pool, c ≠ '/') :
    (aget (diskAddLoop datasets uuid ('/' :: (pool ++ '/' :: rest)) []) d).isSome
        = true ↔
    ((∃ props, (d, props) ∈ datasets) ∧
      (startsWith d (pool ++ '/' :: rest) = true ∨
       startsWith d (pool ++ chars "/cores/" ++ uuid) = true)) := by
  have hdrop : jsSliceFrom ('/' :: (pool ++ '/' :: rest)) 1
      = pool ++ '/' :: rest := by
    simp [jsSliceFrom]
  rw [diskAddLoop_aget_isSome, hdrop, pool_extraction pool rest hpool]
  simp only [aget, Option.isSome_none, Bool.false_eq_true, false_or]
  constructor
  · rintro ⟨props, hmem, hcond⟩
    exact ⟨⟨props, hmem⟩, hcond⟩
  · rintro ⟨⟨props, hmem⟩, hcond⟩
    exact ⟨props, hmem, hcond⟩

/-- Claim C5 witness: the instance `abc` rooted at `/pool0/zones/abc`,
with the three-dataset listing of the spec's example. -/
theorem witness_C5 :
    (∀ c ∈ chars "pool0", c ≠ '/') ∧
    ((aget (diskAddLoop
        [(chars "pool0/zones/abc", []), (chars "pool0/cores/abc", []),
         (chars "pool1/zones/other", [])]
        (chars "abc") ('/' :: (chars "pool0" ++ '/' :: chars "zones/abc")) [])
        (chars "pool0/zones/abc")).isSome = true ↔
      ((∃ props, (chars "pool0/zones/abc", props) ∈
          [(chars "pool0/zones/abc", ([] : List (Str × Str))),
           (chars "pool0/cores/abc", []), (chars "pool1/zones/other", [])]) ∧
        (startsWith (chars "pool0/zones/abc")
            (chars "pool0" ++ '/' :: chars "zones/abc") = true ∨
         startsWith (chars "pool0/zones/abc")
            (chars "pool0" ++ chars "/cores/" ++ chars "abc") = true))) :=
  ⟨by decide, claim_C5
    [(chars "pool0/zones/abc", []), (chars "pool0/cores/abc", []),
     (chars "pool1/zones/other", [])]
    (chars "abc") (chars "pool0") (chars "zones/abc")
    (chars "pool0/zones/abc") (by decide)⟩

/-- Claim C2 (confirmed): the waterfall runs network collection, instance
enumeration, disk collection and transform in that fixed order, and a
cycle emits snapshots only when every one of those stages completed
without error; the emitted set is exactly the transform of the state
produced by the three gather stages in order, and the cycle records no
error. -/
theorem claim_C2 (o : Oracles) (s : WatcherState)
    (h : (gatherStateAllZones o s).emitted ≠ []) :
    (updateNetworkUsage o s).2 = none ∧
    (updateVirtualMachines o (updateNetworkUsage o s).1).2 = none ∧
    (updateDisk o (updateVirtualMachines o (updateNetworkUsage o s).1).1).2
      = none ∧
    transformList
        (updateDisk o (updateVirtualMachines o (updateNetworkUsage o s).1).1).1
      = some (gatherStateAllZones o s).emitted ∧
    (gatherStateAllZones o s).err = none := by
  rcases h1 : updateNetworkUsage o s with ⟨s1, e1⟩
  cases e1 with
  | some e => simp [gatherStateAllZones, h1] at h
  | none =>
    rcases h2 : updateVirtualMachines o s1 with ⟨s2, e2⟩
    cases e2 with
    | some e => simp [gatherStateAllZones, h1, h2] at h
    | none =>
      rcases h3 : updateDisk o s2 with ⟨s3, e3⟩
      cases e3 with
      | some e => simp [gatherStateAllZones, h1, h2, h3] at h
      | none =>
        rcases h4 : transformList s3 with _ | snaps
        · simp [gatherStateAllZones, h1, h2, h3, h4] at h
        · exact ⟨by simp [h1], by simp [h1, h2], by simp [h1, h2, h3],
            by simp [gatherStateAllZones, h1, h2, h3, h4],
            by simp [gatherStateAllZones, h1, h2, h3, h4]⟩

/-- Claim C2 witness: the one-zone scenario emits a snapshot, so all four
stages completed and the emission is the transform's output. -/
theorem witness_C2 :
    (gatherStateAllZones oracleC2 initialState).emitted ≠ [] ∧
    ((updateNetworkUsage oracleC2 initialState).2 = none ∧
      (updateVirtualMachines oracleC2
          (updateNetworkUsage oracleC2 initialState).1).2 = none ∧
      (updateDisk oracleC2 (updateVirtualMachines oracleC2
          (updateNetworkUsage oracleC2 initialState).1).1).2 = none ∧
      transformList (updateDisk oracleC2 (updateVirtualMachines oracleC2
          (updateNetworkUsage oracleC2 initialState).1).1).1
        = some (gatherStateAllZones oracleC2 initialState).emitted ∧
      (gatherStateAllZones oracleC2 initialState).err = none) :=
  ⟨by decide, claim_C2 oracleC2 initialState (by decide)⟩

/-- Claim C1 (code bug): in scenario C1 the state lookup for zone `aaa`
throws "no such zone configured", yet the cycle neither omits `aaa` from
the registry nor from the report: watcher.js:159 stores the registry entry
before the lookup and never deletes it, and the catch at
watcher.js:170-173 calls `cb()` without returning, so `vmGet` still runs,
the entry (with no `status` field) is completed, and the transform emits a
snapshot for the destroyed zone alongside `bbb`'s. -/
theorem claim_C1_bug :
    (gatherStateAllZones oracleC1 initialState).err = none ∧
    (aget (gatherStateAllZones oracleC1 initialState).state.vms
      (chars "aaa")).isSome = true ∧
    ((gatherStateAllZones oracleC1 initialState).emitted.map Snapshot.uuid)
      = [chars "aaa", chars "bbb"] ∧
    (∃ snap ∈ (gatherStateAllZones oracleC1 initialState).emitted,
      snap.uuid = chars "aaa" ∧ snap.status = none) := by
  refine ⟨by decide, by decide, by decide, ?_⟩
  decide

/-- Registry keys other than the processed zone's name are untouched by
one `onVm` continuation. -/
theorem onVmAfterState_vms_preserved (o : Oracles) (s : WatcherState)
    (z : ZoneListing) (status : Option Str) (x : Str) (hx : x ≠ z.name) :
    aget (onVmAfterState o s z status).1.vms x = aget s.vms x := by
  rw [onVmAfterState]
  rcases hv : o.vmGet z.name with _ | cfg
  · simp [aget_aset_ne _ _ _ _ (Ne.symm hx)]
  · simp [aget_aset_ne _ _ _ _ (Ne.symm hx)]

/-- Registry keys other than the processed zone's name are untouched by
one `onVm` call. -/
theorem onVm_vms_preserved (o : Oracles) (s : WatcherState) (z : ZoneListing)
    (x : Str) (hx : x ≠ z.name) :
    aget (onVm o s z).1.vms x = aget s.vms x := by
  rw [onVm]
  by_cases hg : z.name = chars "global"
  · simp [hg]
  · rcases hst : o.getZoneState z.name with st | _ | _ <;>
      simp [hg, hst, onVmAfterState_vms_preserved o s z _ x hx,
        aget_aset_ne _ _ _ _ (Ne.symm hx)]

/-- Registry keys not named in the zone listing are untouched by the whole
`async.each` walk. -/
theorem runEach_vms_preserved (o : Oracles) (zs : List ZoneListing) :
    ∀ (s : WatcherState) (e : Option CycleErr) (x : Str),
      x ∉ zs.map ZoneListing.name →
      aget (runEach o s e zs).1.vms x = aget s.vms x := by
  induction zs with
  | nil =>
    intro s e x _
    rfl
  | cons z rest ih =>
    intro s e x hx
    have hx1 : x ≠ z.name ∧ x ∉ rest.map ZoneListing.name := by
      simpa [not_or] using hx
    rw [runEach]
    by_cases he : e = some CycleErr.thrown
    · simp [he]
    · simp only [he, if_false]
      rw [ih _ _ x hx1.2, onVm_vms_preserved o s z x hx1.1]

/-- Disk-map keys not among the walked registry keys are untouched by the
per-VM disk walk. -/
theorem updateDiskGo_disk_preserved (ds : List (Str × List (Str × Str))) :
    ∀ (entries : List (Str × VmEntry)) (s : WatcherState) (u : Str),
      u ∉ entries.map Prod.fst →
      aget (updateDiskGo ds s entries).1.disk u = aget s.disk u := by
  intro entries
  induction entries with
  | nil =>
    intro s u _
    rfl
  | cons p rest ih =>
    obtain ⟨uuid, vm⟩ := p
    intro s u hu
    have hu1 : u ≠ uuid ∧ u ∉ rest.map Prod.fst := by
      rw [List.map_cons, List.mem_cons, not_or] at hu
      exact hu
    simp only [updateDiskGo]
    rcases hag : aget s.disk uuid with _ | cur0 <;>
      rcases hc : vm.config with _ | cfg <;>
      cases ds <;>
      simp [hag, hc, ih, hu1.2, aget_aset_ne _ _ _ _ (Ne.symm hu1.1)]

/-- Claim C9 as amended: only the network map is rebuilt from scratch each
cycle (on success it is replaced wholesale by a map that depends on the
oracle reads alone); the instance registry and the disk map are never
cleared, so a registry entry whose zone is absent from the current cycle's
listing, and a disk entry whose uuid is absent from the current registry,
survive unchanged from the earlier cycle. -/
theorem claim_C9 :
    (∀ (o : Oracles) (s : WatcherState) (z : Str),
      z ∉ o.vmList.map ZoneListing.name →
      aget (updateVirtualMachines o s).1.vms z = aget s.vms z) ∧
    (∀ (o : Oracles) (s : WatcherState) (u : Str),
      u ∉ s.vms.map Prod.fst →
      aget (updateDisk o s).1.disk u = aget s.disk u) ∧
    (∀ (o : Oracles) (s s' : WatcherState),
      (updateNetworkUsage o s).2 = none → (updateNetworkUsage o s').2 = none →
      (updateNetworkUsage o s).1.network
        = (updateNetworkUsage o s').1.network) := by
  refine ⟨?_, ?_, ?_⟩
  · intro o s z hz
    exact runEach_vms_preserved o o.vmList s none z hz
  · intro o s u hu
    rw [updateDisk]
    rcases hz : o.zfsGet with _ | ds
    · rfl
    · exact updateDiskGo_disk_preserved ds s.vms s u hu
  · intro o s s' hnone hnone'
    rcases hb : o.bootTime with _ | boot
    · simp [updateNetworkUsage, hb] at hnone
    · rcases hp : processStats o.getZoneById boot o.linkStats.reverse with _ | recs
      · simp [updateNetworkUsage, hb, hp] at hnone
      · simp [updateNetworkUsage, hb, hp]

/-- Claim C9 counterexample: the original claim is false — after a first
cycle that listed zone `aaa` and a second cycle whose listing holds only
`bbb`, the registry still holds `aaa` and the second cycle even emits a
snapshot for the vanished zone. -/
theorem counterexample_C9 :
    (chars "aaa" ∉ oracleC9b.vmList.map ZoneListing.name) ∧
    (aget (gatherStateAllZones oracleC9b
        (gatherStateAllZones oracleC9a initialState).state).state.vms
      (chars "aaa")).isSome = true ∧
    (∃ snap ∈ (gatherStateAllZones oracleC9b
        (gatherStateAllZones oracleC9a initialState).state).emitted,
      snap.uuid = chars "aaa") := by
  refine ⟨by decide, by decide, ?_⟩
  decide

/-- Claim C9 witness: the amended preservation statement at the concrete
second-cycle oracle and a key absent from its listing. -/
theorem witness_C9 :
    (chars "zzz" ∉ oracleC9b.vmList.map ZoneListing.name) ∧
    aget (updateVirtualMachines oracleC9b initialState).1.vms (chars "zzz")
      = aget initialState.vms (chars "zzz") :=
  ⟨by decide, claim_C9.1 oracleC9b initialState (chars "zzz") (by decide)⟩

end Hagfish
